import Mathlib

/-!
Verification of the wall-update tool module (`padlet_api_tools.py`).

The module's core is:
  * `remove_none_values` — a recursive sanitizer dropping `None`-valued keys
    from dictionaries;
  * `_get_padlet_token_from_runtime` / the token fallback in `update_padlet`
    — per-call credential resolution;
  * `send_update_wall_request` — request construction and response
    classification for the outbound HTTP call.

We shallowly embed the Python data these functions traverse as a tree type
`PyVal` (JSON-like values plus attribute-bearing objects and an
exception-raising object, which the credential probing code must tolerate),
and embed each function directly from its source.
-/

set_option maxRecDepth 4000

mutual
/-- A Python runtime value as seen by this module: JSON scalars, lists and
dictionaries, plus `vobj` (an attribute-bearing non-dict object, attributes
read with `getattr`) and `vraising` (an object whose attribute access or
`str()` raises an exception — the "unexpected shape" the token-probing code
guards against with `try/except`). -/
inductive PyVal : Type where
  | vnone : PyVal
  | vbool : Bool → PyVal
  | vint : Int → PyVal
  | vstr : String → PyVal
  | vlist : PyList → PyVal
  | vdict : PyEntries → PyVal
  | vobj : PyEntries → PyVal
  | vraising : PyVal
inductive PyList : Type where
  | nil : PyList
  | cons : PyVal → PyList → PyList
inductive PyEntries : Type where
  | nil : PyEntries
  | cons : String → PyVal → PyEntries → PyEntries
end

deriving instance DecidableEq for PyVal
deriving instance DecidableEq for PyList
deriving instance DecidableEq for PyEntries
deriving instance DecidableEq for Except

/-- `v is None` (the test the dict comprehension in `remove_none_values`
performs on each value). -/
def pyIsNone : PyVal → Bool
  | .vnone => true
  | _ => false

/-- Python truthiness (`if token:` / `if not (...)`): `None`, `False`, `0`,
`""` and empty containers are falsy; non-dict objects without `__bool__` are
truthy. -/
def pyTruthy : PyVal → Bool
  | .vnone => false
  | .vbool b => b
  | .vint n => n != 0
  | .vstr s => s != ""
  | .vlist xs => xs != PyList.nil
  | .vdict kvs => kvs != PyEntries.nil
  | .vobj _ => true
  | .vraising => true

/-- Python `str(v)`. Container/object reprs are abstracted to fixed non-empty
strings (the token code only ever applies `str` to scalar-ish tokens);
`vraising` raises. -/
def pyStr : PyVal → Except Unit String
  | .vnone => .ok "None"
  | .vbool b => .ok (if b then "True" else "False")
  | .vint n => .ok (toString n)
  | .vstr s => .ok s
  | .vlist _ => .ok "<list>"
  | .vdict _ => .ok "<dict>"
  | .vobj _ => .ok "<object>"
  | .vraising => .error ()

mutual
/-- `remove_none_values` (padlet_api_tools.py lines 156-162):

    if isinstance(obj, dict):
        return \x7bk: remove_none_values(v) for k, v in obj.items() if v is not None\x7d
    elif isinstance(obj, list):
        return [remove_none_values(item) for item in obj]
    else:
        return obj

`remove_none_entries` embeds the dict comprehension (filter on `v is not
None`, then recurse) and `remove_none_list` the list comprehension. -/
def remove_none_values : PyVal → PyVal
  | .vdict kvs => .vdict (remove_none_entries kvs)
  | .vlist xs => .vlist (remove_none_list xs)
  | v => v
def remove_none_entries : PyEntries → PyEntries
  | .nil => .nil
  | .cons k v rest =>
    if pyIsNone v then remove_none_entries rest
    else .cons k (remove_none_values v) (remove_none_entries rest)
def remove_none_list : PyList → PyList
  | .nil => .nil
  | .cons x rest => .cons (remove_none_values x) (remove_none_list rest)
end

/-- Spec-side combinator: the entries whose value is not `None`,
in order. -/
def entriesFilterNonNone : PyEntries → PyEntries
  | .nil => .nil
  | .cons k v rest =>
    if pyIsNone v then entriesFilterNonNone rest
    else .cons k v (entriesFilterNonNone rest)

/-- Spec-side combinator: apply `f` to every value, keeping keys and
order. -/
def entriesMapValues (f : PyVal → PyVal) : PyEntries → PyEntries
  | .nil => .nil
  | .cons k v rest => .cons k (f v) (entriesMapValues f rest)

/-- `(k, v)` occurs among the entries. -/
def entriesMem (k : String) (v : PyVal) : PyEntries → Prop
  | .nil => False
  | .cons k0 v0 rest => (k0 = k ∧ v0 = v) ∨ entriesMem k v rest

/-- First value stored under key `k`, if any (Python dicts have unique keys;
on duplicate keys this takes the first, which suffices for our lemmas). -/
def lookupEntries : PyEntries → String → Option PyVal
  | .nil, _ => none
  | .cons k0 v rest, k => if k0 = k then some v else lookupEntries rest k

/-- Element at index `i` of an embedded Python list. -/
def nthList : PyList → Nat → Option PyVal
  | .nil, _ => none
  | .cons x _, 0 => some x
  | .cons _ rest, n + 1 => nthList rest n

/-- Length of an embedded Python list. -/
def lengthList : PyList → Nat
  | .nil => 0
  | .cons _ rest => lengthList rest + 1

mutual
/-- Nesting depth of a tree: scalars are depth 0, a container is one more
than its deepest child. -/
def depth : PyVal → Nat
  | .vdict kvs => 1 + depthEntries kvs
  | .vlist xs => 1 + depthList xs
  | .vobj kvs => 1 + depthEntries kvs
  | _ => 0
def depthEntries : PyEntries → Nat
  | .nil => 0
  | .cons _ v rest => max (depth v) (depthEntries rest)
def depthList : PyList → Nat
  | .nil => 0
  | .cons x rest => max (depth x) (depthList rest)
end

/-- A path step into a JSON-like tree: a dictionary key or a list index. -/
inductive PathStep : Type where
  | key : String → PathStep
  | idx : Nat → PathStep
deriving DecidableEq

/-- Follow a path of keys/indices down a tree. -/
def getPath : PyVal → List PathStep → Option PyVal
  | v, [] => some v
  | .vdict kvs, .key k :: p =>
    match lookupEntries kvs k with
    | some v => getPath v p
    | none => none
  | .vlist xs, .idx i :: p =>
    match nthList xs i with
    | some v => getPath v p
    | none => none
  | _, _ => none

/-- A dictionary or a list (the shapes `remove_none_values` recurses
into). -/
def isContainer : PyVal → Bool
  | .vdict _ => true
  | .vlist _ => true
  | _ => false

mutual
/-- Every leaf of the tree is `None` (containers contribute the leaves of
their children; an empty container has no leaves). -/
def allLeavesNull : PyVal → Bool
  | .vdict kvs => allLeavesNullEntries kvs
  | .vlist xs => allLeavesNullList xs
  | .vnone => true
  | _ => false
def allLeavesNullEntries : PyEntries → Bool
  | .nil => true
  | .cons _ v rest => allLeavesNull v && allLeavesNullEntries rest
def allLeavesNullList : PyList → Bool
  | .nil => true
  | .cons x rest => allLeavesNull x && allLeavesNullList rest
end

/-- Every value directly stored in the entry list is `None`. -/
def allValuesNone : PyEntries → Bool
  | .nil => true
  | .cons _ v rest => pyIsNone v && allValuesNone rest

/-! ## Credential resolution (`_get_padlet_token_from_runtime`, `update_padlet`) -/

/-- The langgraph runtime as the token code sees it: a `config` slot and a
`context` slot (`getattr(runtime, "config", None)` /
`getattr(runtime, "context", None)`); a slot the runtime lacks is `vnone`. -/
structure Runtime : Type where
  config : PyVal
  context : PyVal

/-- `getattr(v, name, None)`: raises on `vraising`, looks up an attribute of
`vobj` (default `None`), and yields `None` on every other value (dicts,
scalars and `None` carry none of the attribute names this module probes). -/
def pyGetattr : PyVal → String → Except Unit PyVal
  | .vraising, _ => .error ()
  | .vobj attrs, name => .ok ((lookupEntries attrs name).getD .vnone)
  | _, _ => .ok .vnone

/-- The dual-shape probe the source performs on both slots:

    if isinstance(x, dict):
        y = x.get(field)
    else:
        y = getattr(x, field, None)

(`dict.get` with its default of `None` never raises; `getattr` may). -/
def probeField (x : PyVal) (field : String) : Except Unit PyVal :=
  match x with
  | .vdict kvs => .ok ((lookupEntries kvs field).getD .vnone)
  | x => pyGetattr x field

/-- The token value block 1 of `_get_padlet_token_from_runtime` reaches:
`configurable` read from `config` (dual shape), then `padlet_token` read from
`configurable` (dual shape); an exception anywhere aborts the block. -/
def configBlockToken (config : PyVal) : Except Unit PyVal := do
  let configurable ← probeField config "configurable"
  probeField configurable "padlet_token"

/-- Shared tail of both `try` blocks:

    if token:
        return str(token)

A falsy token falls through; an exception from `str` is caught by the
enclosing `except Exception: pass`, which also falls through. -/
def returnIfTruthy (token : Except Unit PyVal) : Option String :=
  match token with
  | .error _ => none
  | .ok t =>
    if pyTruthy t then
      match pyStr t with
      | .ok s => some s
      | .error _ => none
    else none

/-- Block 1 of `_get_padlet_token_from_runtime` (lines 174-190): try
`config.configurable.padlet_token`, swallowing any exception. -/
def tryConfigBlock (config : PyVal) : Option String :=
  returnIfTruthy (configBlockToken config)

/-- Block 2 of `_get_padlet_token_from_runtime` (lines 192-202): try
`context.padlet_token` (dual shape), swallowing any exception. -/
def tryContextBlock (context : PyVal) : Option String :=
  returnIfTruthy (probeField context "padlet_token")

/-- `_get_padlet_token_from_runtime` (lines 165-204): block 1, then block 2,
then `None`. -/
def _get_padlet_token_from_runtime (rt : Runtime) : Option String :=
  match tryConfigBlock rt.config with
  | some s => some s
  | none => tryContextBlock rt.context

/-- The process environment variables this module reads; `none` means the
variable is unset (`os.getenv` returns `None`). -/
structure Env : Type where
  PADLET_AI_TOKEN : Option String
  ENVIRONMENT : Option String
  RAILS_INTERNAL_URL : Option String

/-- Truthiness of an `os.getenv` result / optional string: unset and `""`
are falsy. -/
def optStrTruthy : Option String → Bool
  | none => false
  | some s => s != ""

/-- The token `update_padlet` ends up using (lines 226-231): the runtime
token if truthy, else the `PADLET_AI_TOKEN` environment token if truthy,
else nothing (the missing-token error path). -/
def resolved_token (rt : Runtime) (env : Env) : Option String :=
  let token := _get_padlet_token_from_runtime rt
  if optStrTruthy token then token
  else
    let env_token := env.PADLET_AI_TOKEN
    if optStrTruthy env_token then env_token
    else none

/-! ## Request construction and response classification
(`send_update_wall_request`) -/

/-- The single outbound POST: its URL, its JSON body (the full
`json={"tool_uses": cleaned_wall_data}` payload) and the value of its
`Authorization` header. -/
structure HttpRequest : Type where
  url : String
  body : PyVal
  authorization : String
deriving DecidableEq

/-- What `await response.json()` does for the received response: produce a
parsed JSON value, raise `aiohttp.ContentTypeError` (body not JSON), or
raise another `aiohttp.ClientError`. -/
inductive BodyOutcome : Type where
  | json : PyVal → BodyOutcome
  | contentTypeError : BodyOutcome
  | clientError : String → BodyOutcome
deriving DecidableEq

/-- The HTTP response the server sends back: status plus body behaviour. -/
structure HttpResponse : Type where
  status : Nat
  body : BodyOutcome
deriving DecidableEq

/-- The distinct failure modes of `send_update_wall_request`. The first five
are `WallUpdateFailedError` raises, distinguished here by their distinct
message templates; `attrEscape` is an uncaught `AttributeError` (raised when
`.get` is called on a non-dict while probing `data.attributes.success`) —
it is caught by neither `except` clause and escapes the function
unclassified. -/
inductive SendFailure : Type where
  | railsUrlMissing : SendFailure
  | nonOkStatus : Nat → SendFailure
  | responseNotJson : Nat → SendFailure
  | clientFailed : String → SendFailure
  | wallUpdateRejected : SendFailure
  | attrEscape : SendFailure
deriving DecidableEq

/-- `d.get(key, default)` as the response-validation chain uses it: only a
dict has a `.get` method — on any other value Python raises
`AttributeError`. -/
def pyDictGet (v : PyVal) (key : String) (dflt : PyVal) : Except Unit PyVal :=
  match v with
  | .vdict kvs => .ok ((lookupEntries kvs key).getD dflt)
  | _ => .error ()

/-- `response_json.get("data", \x7b\x7d).get("attributes", \x7b\x7d).get("success", True)`
(lines 269-271); `.error` is an uncaught `AttributeError`. -/
def getDataAttributesSuccess (response_json : PyVal) : Except Unit PyVal := do
  let d ← pyDictGet response_json "data" (.vdict .nil)
  let a ← pyDictGet d "attributes" (.vdict .nil)
  pyDictGet a "success" (.vbool true)

/-- The response-interpretation block of `send_update_wall_request`
(lines 264-281): status 200 parses the body (`ContentTypeError` →
"Response not json", other `ClientError` → "Wall update failed: ...") and
raises "Wall update failed" when the probed `success` value is falsy;
any other status raises "Wall update failed with status ...". `none` means
the block raises nothing (success). -/
def interpretResponse (resp : HttpResponse) : Option SendFailure :=
  if resp.status = 200 then
    match resp.body with
    | .json response_json =>
      match getDataAttributesSuccess response_json with
      | .error _ => some .attrEscape
      | .ok v => if pyTruthy v then none else some .wallUpdateRejected
    | .contentTypeError => some (.responseNotJson resp.status)
    | .clientError e => some (.clientFailed e)
  else some (.nonOkStatus resp.status)

/-- Python `str.rstrip("/")`: remove every trailing slash. -/
def rstripSlashes (s : String) : String :=
  String.mk ((s.data.reverse.dropWhile (fun c => c = '/')).reverse)

/-- `send_update_wall_request` (lines 248-281). The network is abstracted as
`respond`, the server's response to a request. Returns the request actually
issued (`none` when the function fails before opening the connection) and
the failure raised, if any. The function sanitizes the payload, requires
`RAILS_INTERNAL_URL` to be set and truthy, builds the single POST request
and classifies the response. -/
def send_update_wall_request (env : Env) (token : String) (wall_id : Int)
    (wall_data : PyVal) (respond : HttpRequest → HttpResponse) :
    Option HttpRequest × Option SendFailure :=
  let cleaned_wall_data := remove_none_values wall_data
  match env.RAILS_INTERNAL_URL with
  | none => (none, some .railsUrlMissing)
  | some raw =>
    if raw = "" then (none, some .railsUrlMissing)
    else
      let base_url := rstripSlashes raw ++ "/"
      let request : HttpRequest :=
        ⟨base_url ++ "api/1/walls/" ++ toString wall_id ++ "/ai-chat",
         .vdict (.cons "tool_uses" cleaned_wall_data .nil),
         "Bearer " ++ token⟩
      (some request, interpretResponse (respond request))

/-! ## The tool entry point (`update_padlet`) -/

/-- What a call to the `update_padlet` tool produces: the dict
`{"success": True, "wall_id": wall_id}` (modelled as `ok wall_id`), the
`WallUpdateFailedError("Missing Padlet JWT token. ...")` raise, or a
failure propagated from `send_update_wall_request`. -/
inductive CallResult : Type where
  | ok : Int → CallResult
  | missingToken : CallResult
  | sendFailed : SendFailure → CallResult
deriving DecidableEq

/-- The diagnostic dict `pprint`-ed on the missing-token path in development
mode (lines 235-238); a fixed value, mentioning only the two expected
locations and never any token. -/
def missingTokenDiag : PyVal :=
  .vdict (.cons "padlet_token_error" (.vstr "Missing token")
    (.cons "expected_location"
      (.vstr "config.configurable.padlet_token or context.padlet_token") .nil))

/-- `update_padlet` (lines 207-244), with the network abstracted as
`respond`. Produces the request issued (if any), the diagnostics printed,
and the call's result. Token resolution follows `resolved_token`; with no
token the call raises the missing-token error (printing `missingTokenDiag`
first when `ENVIRONMENT == "development"`); otherwise it delegates to
`send_update_wall_request` and returns `{"success": True, "wall_id":
wall_id}` when that raises nothing. -/
def update_padlet (rt : Runtime) (env : Env) (wall_id : Int)
    (wall_data : PyVal) (respond : HttpRequest → HttpResponse) :
    Option HttpRequest × List PyVal × CallResult :=
  match resolved_token rt env with
  | none =>
    let diags := if env.ENVIRONMENT = some "development"
      then [missingTokenDiag] else []
    (none, diags, .missingToken)
  | some token =>
    match send_update_wall_request env token wall_id wall_data respond with
    | (req, some f) => (req, [], .sendFailed f)
    | (req, none) => (req, [], .ok wall_id)

/-! ## Induction principles for the mutual tree type -/

theorem pyEntriesInduction (motive : PyEntries → Prop) (hnil : motive .nil)
    (hcons : ∀ k v rest, motive rest → motive (.cons k v rest)) :
    ∀ kvs, motive kvs
  | .nil => hnil
  | .cons k v rest => hcons k v rest (pyEntriesInduction motive hnil hcons rest)

theorem pyListInduction (motive : PyList → Prop) (hnil : motive .nil)
    (hcons : ∀ x rest, motive rest → motive (.cons x rest)) :
    ∀ xs, motive xs
  | .nil => hnil
  | .cons x rest => hcons x rest (pyListInduction motive hnil hcons rest)

theorem pyValMutualInduction (motive : PyVal → Prop) (motiveL : PyList → Prop)
    (motiveE : PyEntries → Prop)
    (h1 : motive .vnone) (h2 : ∀ b, motive (.vbool b)) (h3 : ∀ n, motive (.vint n))
    (h4 : ∀ s, motive (.vstr s)) (h5 : ∀ xs, motiveL xs → motive (.vlist xs))
    (h6 : ∀ kvs, motiveE kvs → motive (.vdict kvs))
    (h7 : ∀ kvs, motiveE kvs → motive (.vobj kvs)) (h8 : motive .vraising)
    (h9 : motiveL .nil) (h10 : ∀ x xs, motive x → motiveL xs → motiveL (.cons x xs))
    (h11 : motiveE .nil)
    (h12 : ∀ k v rest, motive v → motiveE rest → motiveE (.cons k v rest)) :
    (∀ v, motive v) ∧ (∀ xs, motiveL xs) ∧ (∀ kvs, motiveE kvs) :=
  ⟨fun v => @PyVal.rec motive motiveL motiveE h1 h2 h3 h4 h5 h6 h7 h8 h9 h10 h11 h12 v,
   fun xs => @PyList.rec motive motiveL motiveE h1 h2 h3 h4 h5 h6 h7 h8 h9 h10 h11 h12 xs,
   fun kvs => @PyEntries.rec motive motiveL motiveE h1 h2 h3 h4 h5 h6 h7 h8 h9 h10 h11 h12 kvs⟩

/-! ## Helper lemmas about the sanitizer -/

theorem remove_none_values_vdict (kvs : PyEntries) :
    remove_none_values (.vdict kvs) = .vdict (remove_none_entries kvs) := rfl

theorem remove_none_values_vlist (xs : PyList) :
    remove_none_values (.vlist xs) = .vlist (remove_none_list xs) := rfl

theorem remove_none_values_scalar (v : PyVal) (h : isContainer v = false) :
    remove_none_values v = v := by
  cases v <;> simp_all [isContainer, remove_none_values]

theorem pyIsNone_eq_false_iff (v : PyVal) : pyIsNone v = false ↔ v ≠ .vnone := by
  cases v <;> simp [pyIsNone]

theorem pyIsNone_remove_none_values (v : PyVal) (h : pyIsNone v = false) :
    pyIsNone (remove_none_values v) = false := by
  cases v <;> simp_all [pyIsNone, remove_none_values]

theorem remove_none_entries_eq_filter_map (kvs : PyEntries) :
    remove_none_entries kvs =
      entriesMapValues remove_none_values (entriesFilterNonNone kvs) := by
  induction kvs using pyEntriesInduction with
  | hnil => rfl
  | hcons k v rest ih =>
    by_cases h : pyIsNone v = true
    · simp [remove_none_entries, entriesFilterNonNone, h, ih]
    · simp only [Bool.not_eq_true] at h
      simp [remove_none_entries, entriesFilterNonNone, entriesMapValues, h, ih]

theorem entriesMem_remove_none_entries (k : String) (v : PyVal) (kvs : PyEntries)
    (hmem : entriesMem k v kvs) (hv : pyIsNone v = false) :
    entriesMem k (remove_none_values v) (remove_none_entries kvs) := by
  induction kvs using pyEntriesInduction with
  | hnil => exact absurd hmem id
  | hcons k0 v0 rest ih =>
    rcases hmem with ⟨hk, hv0⟩ | hmem
    · subst hk; subst hv0
      simp [remove_none_entries, hv, entriesMem]
    · by_cases h0 : pyIsNone v0 = true
      · simpa [remove_none_entries, h0] using ih hmem
      · simp only [Bool.not_eq_true] at h0
        simp [remove_none_entries, h0, entriesMem]
        exact Or.inr (ih hmem)

theorem lengthList_remove_none_list (xs : PyList) :
    lengthList (remove_none_list xs) = lengthList xs := by
  induction xs using pyListInduction with
  | hnil => rfl
  | hcons x rest ih => simp [remove_none_list, lengthList, ih]

theorem nthList_remove_none_list (xs : PyList) (i : Nat) :
    nthList (remove_none_list xs) i = (nthList xs i).map remove_none_values := by
  induction xs using pyListInduction generalizing i with
  | hnil => simp [remove_none_list, nthList]
  | hcons x rest ih =>
    cases i with
    | zero => simp [remove_none_list, nthList]
    | succ n => simpa [remove_none_list, nthList] using ih n

theorem lookupEntries_remove_none_entries (kvs : PyEntries) (k : String) (v : PyVal)
    (hl : lookupEntries kvs k = some v) (hv : pyIsNone v = false) :
    lookupEntries (remove_none_entries kvs) k = some (remove_none_values v) := by
  induction kvs using pyEntriesInduction with
  | hnil => simp [lookupEntries] at hl
  | hcons k0 v0 rest ih =>
    by_cases hk : k0 = k
    · subst hk
      simp [lookupEntries] at hl
      subst hl
      simp [remove_none_entries, hv, lookupEntries]
    · simp [lookupEntries, hk] at hl
      by_cases h0 : pyIsNone v0 = true
      · simpa [remove_none_entries, h0] using ih hl
      · simp only [Bool.not_eq_true] at h0
        simpa [remove_none_entries, h0, lookupEntries, hk] using ih hl

theorem isContainer_pyIsNone (v : PyVal) (h : isContainer v = true) :
    pyIsNone v = false := by
  cases v <;> simp_all [isContainer, pyIsNone]

theorem depth_remove_all :
    (∀ v, depth (remove_none_values v) ≤ depth v) ∧
    (∀ xs, depthList (remove_none_list xs) ≤ depthList xs) ∧
    (∀ kvs, depthEntries (remove_none_entries kvs) ≤ depthEntries kvs) := by
  refine pyValMutualInduction
    (fun v => depth (remove_none_values v) ≤ depth v)
    (fun xs => depthList (remove_none_list xs) ≤ depthList xs)
    (fun kvs => depthEntries (remove_none_entries kvs) ≤ depthEntries kvs)
    ?_ ?_ ?_ ?_ ?_ ?_ ?_ ?_ ?_ ?_ ?_ ?_
  · simp [remove_none_values, depth]
  · intro b; simp [remove_none_values, depth]
  · intro n; simp [remove_none_values, depth]
  · intro s; simp [remove_none_values, depth]
  · intro xs ih
    simpa [remove_none_values_vlist, depth] using Nat.add_le_add_left ih 1
  · intro kvs ih
    simpa [remove_none_values_vdict, depth] using Nat.add_le_add_left ih 1
  · intro kvs _; simp [remove_none_values, depth]
  · simp [remove_none_values, depth]
  · simp [remove_none_list, depthList]
  · intro x xs ihx ihxs
    simpa [remove_none_list, depthList] using max_le_max ihx ihxs
  · simp [remove_none_entries, depthEntries]
  · intro k v rest ihv ihrest
    by_cases h : pyIsNone v = true
    · simp only [remove_none_entries, h, if_true, depthEntries]
      exact le_trans ihrest (le_max_right _ _)
    · simp only [Bool.not_eq_true] at h
      simp only [remove_none_entries, h, Bool.false_eq_true, if_false, depthEntries]
      exact max_le_max ihv ihrest

theorem getPath_vnone (p : List PathStep) (v : PyVal)
    (h : getPath .vnone p = some v) : v = .vnone := by
  cases p with
  | nil =>
    simp [getPath] at h
    exact h.symm
  | cons s p => cases s <;> simp [getPath] at h

theorem getPath_remove_none_values (p : List PathStep) :
    ∀ x v : PyVal, getPath x p = some v → isContainer v = false →
      pyIsNone v = false → getPath (remove_none_values x) p = some v := by
  induction p with
  | nil =>
    intro x v h hc _
    simp [getPath] at h
    subst h
    rw [remove_none_values_scalar x hc]
    simp [getPath]
  | cons step p ih =>
    intro x v h hc hn
    cases step with
    | key k =>
      cases x <;> simp [getPath] at h
      case vdict kvs =>
        rcases hw : lookupEntries kvs k with _ | w
        · rw [hw] at h; simp at h
        · rw [hw] at h
          by_cases hwn : pyIsNone w = true
          · have : w = .vnone := by cases w <;> simp_all [pyIsNone]
            subst this
            have := getPath_vnone p v h
            subst this
            simp [pyIsNone] at hn
          · simp only [Bool.not_eq_true] at hwn
            have hl := lookupEntries_remove_none_entries kvs k w hw hwn
            have hrec := ih w v h hc hn
            simp [remove_none_values_vdict, getPath, hl, hrec]
    | idx i =>
      cases x <;> simp [getPath] at h
      case vlist xs =>
        rcases hw : nthList xs i with _ | w
        · rw [hw] at h; simp at h
        · rw [hw] at h
          by_cases hwn : pyIsNone w = true
          · have : w = .vnone := by cases w <;> simp_all [pyIsNone]
            subst this
            have := getPath_vnone p v h
            subst this
            simp [pyIsNone] at hn
          · simp only [Bool.not_eq_true] at hwn
            have hl : nthList (remove_none_list xs) i = some (remove_none_values w) := by
              rw [nthList_remove_none_list, hw]; rfl
            have hrec := ih w v h hc hn
            simp [remove_none_values_vlist, getPath, hl, hrec]

theorem remove_none_idem_all :
    (∀ v, remove_none_values (remove_none_values v) = remove_none_values v) ∧
    (∀ xs, remove_none_list (remove_none_list xs) = remove_none_list xs) ∧
    (∀ kvs, remove_none_entries (remove_none_entries kvs) = remove_none_entries kvs) := by
  refine pyValMutualInduction
    (fun v => remove_none_values (remove_none_values v) = remove_none_values v)
    (fun xs => remove_none_list (remove_none_list xs) = remove_none_list xs)
    (fun kvs => remove_none_entries (remove_none_entries kvs) = remove_none_entries kvs)
    rfl (fun _ => rfl) (fun _ => rfl) (fun _ => rfl) ?_ ?_ (fun _ _ => rfl) rfl
    rfl ?_ rfl ?_
  · intro xs ih; simp [remove_none_values_vlist, ih]
  · intro kvs ih; simp [remove_none_values_vdict, ih]
  · intro x xs ihx ihxs; simp [remove_none_list, ihx, ihxs]
  · intro k v rest ihv ihrest
    by_cases h : pyIsNone v = true
    · simp [remove_none_entries, h, ihrest]
    · simp only [Bool.not_eq_true] at h
      simp [remove_none_entries, h, pyIsNone_remove_none_values v h, ihv, ihrest]

theorem allValuesNone_remove_none_entries (kvs : PyEntries)
    (h : allValuesNone kvs = true) : remove_none_entries kvs = .nil := by
  induction kvs using pyEntriesInduction with
  | hnil => rfl
  | hcons k v rest ih =>
    simp only [allValuesNone, Bool.and_eq_true] at h
    simp [remove_none_entries, h.1, ih h.2]

/-! ## Claims about the payload sanitizer -/

/-- Claim C4: for every mapping in the input tree, `remove_none_values`
drops every key whose value is `None`, recursively sanitizes the remaining
values (stated as the filter-then-map equation), and always retains keys
with non-`None` values — including empty strings and empty lists — while
every scalar is returned unchanged. Totality over any JSON-like tree is
inherent: `remove_none_values` is a total Lean function on all of
`PyVal`. -/
theorem C4_sanitize_mapping :
    (∀ kvs, remove_none_values (.vdict kvs) =
      .vdict (entriesMapValues remove_none_values (entriesFilterNonNone kvs))) ∧
    (∀ kvs k v, entriesMem k v kvs → pyIsNone v = false →
      entriesMem k (remove_none_values v) (remove_none_entries kvs)) ∧
    (∀ kvs k, entriesMem k (.vstr "") kvs →
      entriesMem k (.vstr "") (remove_none_entries kvs)) ∧
    (∀ kvs k, entriesMem k (.vlist .nil) kvs →
      entriesMem k (.vlist .nil) (remove_none_entries kvs)) ∧
    (∀ s, remove_none_values (.vstr s) = .vstr s) ∧
    (∀ n, remove_none_values (.vint n) = .vint n) ∧
    (∀ b, remove_none_values (.vbool b) = .vbool b) ∧
    (remove_none_values .vnone = .vnone) := by
  refine ⟨?_, ?_, ?_, ?_, fun _ => rfl, fun _ => rfl, fun _ => rfl, rfl⟩
  · intro kvs
    rw [remove_none_values_vdict, remove_none_entries_eq_filter_map]
  · exact fun kvs k v hm hv => entriesMem_remove_none_entries k v kvs hm hv
  · intro kvs k hm
    exact entriesMem_remove_none_entries k (.vstr "") kvs hm rfl
  · intro kvs k hm
    exact entriesMem_remove_none_entries k (.vlist .nil) kvs hm rfl

/-- Witness for C4 at a concrete mapping: the key `"b"` holding an empty
string is retained while the `None`-valued key `"a"` is dropped. -/
theorem C4_sanitize_mapping_witness :
    entriesMem "b" (.vstr "")
      (.cons "a" .vnone (.cons "b" (.vstr "") .nil)) ∧
    pyIsNone (.vstr "") = false ∧
    entriesMem "b" (remove_none_values (.vstr ""))
      (remove_none_entries (.cons "a" .vnone (.cons "b" (.vstr "") .nil))) :=
  ⟨Or.inr (Or.inl ⟨rfl, rfl⟩), rfl,
   C4_sanitize_mapping.2.1 (.cons "a" .vnone (.cons "b" (.vstr "") .nil))
     "b" (.vstr "") (Or.inr (Or.inl ⟨rfl, rfl⟩)) rfl⟩

/-- Claim C5: for every sequence, `remove_none_values` recursively
sanitizes every element (stated elementwise), preserves sibling order and
length (so it drops no element at all — in particular it drops no element
other than `None` elements), never increases structure depth, and preserves
every non-`None` leaf value at its original path. -/
theorem C5_sanitize_sequence :
    (∀ xs, remove_none_values (.vlist xs) = .vlist (remove_none_list xs)) ∧
    (∀ xs i, nthList (remove_none_list xs) i =
      (nthList xs i).map remove_none_values) ∧
    (∀ xs, lengthList (remove_none_list xs) = lengthList xs) ∧
    (∀ v, depth (remove_none_values v) ≤ depth v) ∧
    (∀ p x v, getPath x p = some v → isContainer v = false →
      pyIsNone v = false → getPath (remove_none_values x) p = some v) :=
  ⟨fun _ => rfl, nthList_remove_none_list, lengthList_remove_none_list,
   depth_remove_all.1, getPath_remove_none_values⟩

/-- Witness for C5 at a concrete tree: the leaf `"x"` at path
`[idx 1, key "s"]` of a list survives sanitization at the same path. -/
theorem C5_sanitize_sequence_witness :
    getPath (.vlist (.cons .vnone
        (.cons (.vdict (.cons "s" (.vstr "x") (.cons "t" .vnone .nil))) .nil)))
      [PathStep.idx 1, PathStep.key "s"] = some (.vstr "x") ∧
    isContainer (.vstr "x") = false ∧ pyIsNone (.vstr "x") = false ∧
    getPath (remove_none_values (.vlist (.cons .vnone
        (.cons (.vdict (.cons "s" (.vstr "x") (.cons "t" .vnone .nil))) .nil))))
      [PathStep.idx 1, PathStep.key "s"] = some (.vstr "x") :=
  ⟨by decide, rfl, rfl,
   C5_sanitize_sequence.2.2.2.2 [PathStep.idx 1, PathStep.key "s"] _ _
     (by decide) rfl rfl⟩

/-- Claim C9: `remove_none_values` is idempotent — sanitizing an
already-sanitized tree yields an identical tree, for every JSON-like
tree. -/
theorem C9_sanitize_idempotent (v : PyVal) :
    remove_none_values (remove_none_values v) = remove_none_values v :=
  remove_none_idem_all.1 v

/-- Counterexample to claim C8 as stated: the tree
`\x7b"settings": \x7b"format": None\x7d\x7d` has only `None` leaves, yet sanitizing it
yields `\x7b"settings": \x7b\x7d\x7d` — a structure still carrying the key
`"settings"` — and not the empty structure `\x7b\x7d`. -/
theorem C8_nested_all_null_counterexample :
    allLeavesNull (.vdict (.cons "settings"
      (.vdict (.cons "format" .vnone .nil)) .nil)) = true ∧
    remove_none_values (.vdict (.cons "settings"
      (.vdict (.cons "format" .vnone .nil)) .nil)) =
      .vdict (.cons "settings" (.vdict .nil) .nil) ∧
    remove_none_values (.vdict (.cons "settings"
      (.vdict (.cons "format" .vnone .nil)) .nil)) ≠ .vdict .nil := by
  decide

/-- Claim C8 as amended: a mapping all of whose immediate values are `None`
sanitizes to the empty mapping (so a *flat* all-null tree yields an empty
structure), while a nested all-null tree merely has its containers emptied
— container-valued keys are never dropped, so no non-empty container is
silently dropped. -/
theorem C8_all_null_sanitize :
    (∀ kvs, allValuesNone kvs = true →
      remove_none_values (.vdict kvs) = .vdict .nil) ∧
    (∀ kvs k v, entriesMem k v kvs → isContainer v = true →
      entriesMem k (remove_none_values v) (remove_none_entries kvs)) := by
  constructor
  · intro kvs h
    rw [remove_none_values_vdict, allValuesNone_remove_none_entries kvs h]
  · intro kvs k v hm hc
    exact entriesMem_remove_none_entries k v kvs hm (isContainer_pyIsNone v hc)

/-- Witness for C8 (amended) at a concrete flat all-null mapping. -/
theorem C8_all_null_sanitize_witness :
    allValuesNone (.cons "padlet_title" .vnone
      (.cons "posts" .vnone .nil)) = true ∧
    remove_none_values (.vdict (.cons "padlet_title" .vnone
      (.cons "posts" .vnone .nil))) = .vdict .nil :=
  ⟨rfl, C8_all_null_sanitize.1
    (.cons "padlet_title" .vnone (.cons "posts" .vnone .nil)) rfl⟩

/-! ## Claims about the update executor and credential resolution -/

/-- Counterexample to claim C1 as stated: the 200 response whose body is
`\x7b"data": \x7b"attributes": \x7b"success": None\x7d\x7d\x7d` carries no explicit
`success: false` (the probed field is `None`, not `False`), yet the call
does not succeed — `if not response_json.get(...)...` sees a falsy value
and raises `WallUpdateFailedError("Wall update failed")`. -/
theorem C1_success_none_counterexample :
    getDataAttributesSuccess (.vdict (.cons "data" (.vdict (.cons "attributes"
      (.vdict (.cons "success" .vnone .nil)) .nil)) .nil)) = .ok .vnone ∧
    (Except.ok (PyVal.vnone) : Except Unit PyVal) ≠ .ok (.vbool false) ∧
    interpretResponse ⟨200, .json (.vdict (.cons "data" (.vdict (.cons "attributes"
      (.vdict (.cons "success" .vnone .nil)) .nil)) .nil))⟩ =
      some .wallUpdateRejected ∧
    (send_update_wall_request ⟨none, none, some "http://rails"⟩ "t" 1 .vnone
      (fun _ => ⟨200, .json (.vdict (.cons "data" (.vdict (.cons "attributes"
        (.vdict (.cons "success" .vnone .nil)) .nil)) .nil))⟩)).2 =
      some .wallUpdateRejected := by decide

/-- Claim C1 as amended: the executor issues its request exactly when the
base URL is set, and classifies the response it gets: a non-200 status
fails carrying the status; a 200 whose body is not JSON fails; a 200 whose
probed `data.attributes.success` value is *falsy* (not merely the literal
`false` — also `None`, `0`, `""`, empty containers) fails with the
rejection error; a 200 whose probed value is truthy (including the default
`True` used when the field is absent) succeeds; and a 200 whose
`data.attributes` path meets a non-dict value escapes the classification
with an uncaught `AttributeError` (`attrEscape`), as does a `ClientError`
while reading the body, which is re-raised classified. -/
theorem C1_response_classification :
    (∀ (env : Env) raw token wall_id wall_data respond,
      env.RAILS_INTERNAL_URL = some raw → raw ≠ "" →
      ∃ req, (send_update_wall_request env token wall_id wall_data respond).1 = some req ∧
        (send_update_wall_request env token wall_id wall_data respond).2 =
          interpretResponse (respond req)) ∧
    (∀ resp : HttpResponse, resp.status ≠ 200 →
      interpretResponse resp = some (.nonOkStatus resp.status)) ∧
    (interpretResponse ⟨200, .contentTypeError⟩ = some (.responseNotJson 200)) ∧
    (∀ rj v, getDataAttributesSuccess rj = .ok v → pyTruthy v = false →
      interpretResponse ⟨200, .json rj⟩ = some .wallUpdateRejected) ∧
    (∀ rj v, getDataAttributesSuccess rj = .ok v → pyTruthy v = true →
      interpretResponse ⟨200, .json rj⟩ = none) ∧
    (∀ rj, getDataAttributesSuccess rj = .error () →
      interpretResponse ⟨200, .json rj⟩ = some .attrEscape) ∧
    (∀ m, interpretResponse ⟨200, .clientError m⟩ = some (.clientFailed m)) := by
  refine ⟨?_, ?_, rfl, ?_, ?_, ?_, fun _ => rfl⟩
  · intro env raw token wall_id wall_data respond h1 h2
    refine ⟨⟨rstripSlashes raw ++ "/" ++ "api/1/walls/" ++ toString wall_id ++ "/ai-chat",
             .vdict (.cons "tool_uses" (remove_none_values wall_data) .nil),
             "Bearer " ++ token⟩, ?_, ?_⟩ <;>
      simp [send_update_wall_request, h1, h2]
  · intro resp h
    simp [interpretResponse, h]
  · intro rj v h hv
    simp [interpretResponse, h, hv]
  · intro rj v h hv
    simp [interpretResponse, h, hv]
  · intro rj h
    simp [interpretResponse, h]

/-- Witness for C1 (amended): a 500 response is classified as the
status-carrying failure. -/
theorem C1_response_classification_witness :
    (500 : Nat) ≠ 200 ∧
    interpretResponse ⟨500, .contentTypeError⟩ = some (.nonOkStatus 500) :=
  ⟨by decide, C1_response_classification.2.1 ⟨500, .contentTypeError⟩ (by decide)⟩

/-- Claim C2: credential resolution tries `configurable.padlet_token`
first (mapping- or attribute-style), then `context.padlet_token`, then the
`PADLET_AI_TOKEN` environment fallback, first match winning; with
`configurable.padlet_token = "A"` and environment token `"B"` it yields
`"A"` (in both shapes), with only environment token `"B"` it yields `"B"`,
and with neither the call fails with the missing-token error. -/
theorem C2_credential_resolution_order :
    (∀ (rt : Runtime) (env : Env) t, tryConfigBlock rt.config = some t → t ≠ "" →
      resolved_token rt env = some t) ∧
    (∀ (rt : Runtime) (env : Env) t, tryConfigBlock rt.config = none →
      tryContextBlock rt.context = some t → t ≠ "" → resolved_token rt env = some t) ∧
    (∀ (rt : Runtime) (env : Env) e, _get_padlet_token_from_runtime rt = none →
      env.PADLET_AI_TOKEN = some e → e ≠ "" → resolved_token rt env = some e) ∧
    (resolved_token ⟨.vdict (.cons "configurable" (.vdict (.cons "padlet_token"
      (.vstr "A") .nil)) .nil), .vnone⟩ ⟨some "B", none, none⟩ = some "A") ∧
    (resolved_token ⟨.vobj (.cons "configurable" (.vobj (.cons "padlet_token"
      (.vstr "A") .nil)) .nil), .vnone⟩ ⟨some "B", none, none⟩ = some "A") ∧
    (resolved_token ⟨.vnone, .vnone⟩ ⟨some "B", none, none⟩ = some "B") ∧
    (∀ respond, (update_padlet ⟨.vnone, .vnone⟩ ⟨none, none, none⟩ 1 .vnone
      respond).2.2 = .missingToken) := by
  refine ⟨?_, ?_, ?_, by decide, by decide, by decide, fun _ => rfl⟩
  · intro rt env t h ht
    simp [resolved_token, _get_padlet_token_from_runtime, h, optStrTruthy, ht]
  · intro rt env t h1 h2 ht
    simp [resolved_token, _get_padlet_token_from_runtime, h1, h2, optStrTruthy, ht]
  · intro rt env e h1 h2 he
    simp [resolved_token, h1, h2, optStrTruthy, he]

/-- Witness for C2: a mapping-style `configurable.padlet_token = "A"` wins
over an environment token `"B"`. -/
theorem C2_credential_resolution_order_witness :
    tryConfigBlock (.vdict (.cons "configurable" (.vdict (.cons "padlet_token"
      (.vstr "A") .nil)) .nil)) = some "A" ∧ ("A" : String) ≠ "" ∧
    resolved_token ⟨.vdict (.cons "configurable" (.vdict (.cons "padlet_token"
      (.vstr "A") .nil)) .nil), .vnone⟩ ⟨some "B", none, some "http://r"⟩ = some "A" :=
  ⟨by decide, by decide,
   C2_credential_resolution_order.1
     ⟨.vdict (.cons "configurable" (.vdict (.cons "padlet_token"
       (.vstr "A") .nil)) .nil), .vnone⟩
     ⟨some "B", none, some "http://r"⟩ "A" (by decide) (by decide)⟩

/-- Claim C3: whenever the base URL is set, the executor issues exactly one
POST — the single request it constructs — to
`\x7bbaseURL\x7d/api/1/walls/\x7bwallId\x7d/ai-chat` with header
`Authorization: Bearer \x7btoken\x7d` and JSON body
`\x7b"tool_uses": <sanitized wall_data>\x7d`; for
`wall_data = \x7btitle: "New", posts: None\x7d` the sanitized body value is
exactly `\x7b"title": "New"\x7d`; and on a 200 response without
`success: false` the caller receives `\x7bsuccess: true, wall_id\x7d`
(`CallResult.ok 42` for wall 42). -/
theorem C3_request_construction :
    (∀ (env : Env) raw token wall_id wall_data respond,
      env.RAILS_INTERNAL_URL = some raw → raw ≠ "" →
      (send_update_wall_request env token wall_id wall_data respond).1 =
        some ⟨rstripSlashes raw ++ "/" ++ "api/1/walls/" ++ toString wall_id ++ "/ai-chat",
              .vdict (.cons "tool_uses" (remove_none_values wall_data) .nil),
              "Bearer " ++ token⟩) ∧
    (remove_none_values (.vdict (.cons "title" (.vstr "New")
      (.cons "posts" .vnone .nil))) = .vdict (.cons "title" (.vstr "New") .nil)) ∧
    (update_padlet ⟨.vdict (.cons "configurable" (.vdict (.cons "padlet_token"
        (.vstr "t") .nil)) .nil), .vnone⟩
      ⟨none, none, some "http://rails.internal"⟩ 42
      (.vdict (.cons "title" (.vstr "New") (.cons "posts" .vnone .nil)))
      (fun _ => ⟨200, .json (.vdict .nil)⟩) =
      (some ⟨"http://rails.internal/api/1/walls/42/ai-chat",
             .vdict (.cons "tool_uses" (.vdict (.cons "title" (.vstr "New") .nil)) .nil),
             "Bearer t"⟩, [], .ok 42)) := by
  refine ⟨?_, by decide, by decide⟩
  intro env raw token wall_id wall_data respond h1 h2
  simp [send_update_wall_request, h1, h2]

/-- Witness for C3: the request built for base URL `"http://r/"` (trailing
slash stripped), token `"tok"` and wall 5. -/
theorem C3_request_construction_witness :
    (some "http://r/" : Option String) = some "http://r/" ∧ ("http://r/" : String) ≠ "" ∧
    (send_update_wall_request ⟨none, none, some "http://r/"⟩ "tok" 5
      (.vdict (.cons "a" .vnone .nil)) (fun _ => ⟨200, .json (.vdict .nil)⟩)).1 =
      some ⟨rstripSlashes "http://r/" ++ "/" ++ "api/1/walls/" ++ toString (5 : Int) ++ "/ai-chat",
            .vdict (.cons "tool_uses" (remove_none_values (.vdict (.cons "a" .vnone .nil))) .nil),
            "Bearer " ++ "tok"⟩ :=
  ⟨rfl, by decide,
   C3_request_construction.1 ⟨none, none, some "http://r/"⟩ "http://r/" "tok" 5
     (.vdict (.cons "a" .vnone .nil)) (fun _ => ⟨200, .json (.vdict .nil)⟩)
     rfl (by decide)⟩

/-- Claim C6: if `RAILS_INTERNAL_URL` is absent from the environment,
`send_update_wall_request` fails with the missing-base-URL error and the
issued request is `none` — no network call is made — for every token,
wall id and payload. -/
theorem C6_missing_base_url (env : Env) (token : String) (wall_id : Int)
    (wall_data : PyVal) (respond : HttpRequest → HttpResponse)
    (h : env.RAILS_INTERNAL_URL = none) :
    send_update_wall_request env token wall_id wall_data respond =
      (none, some .railsUrlMissing) := by
  simp [send_update_wall_request, h]

/-- Witness for C6 at a concrete unset environment. -/
theorem C6_missing_base_url_witness :
    (Env.mk (some "B") (some "development") none).RAILS_INTERNAL_URL = none ∧
    send_update_wall_request ⟨some "B", some "development", none⟩ "t" 9
      (.vdict (.cons "title" (.vstr "x") .nil))
      (fun _ => ⟨200, .json (.vdict .nil)⟩) = (none, some .railsUrlMissing) :=
  ⟨rfl, C6_missing_base_url ⟨some "B", some "development", none⟩ "t" 9
    (.vdict (.cons "title" (.vstr "x") .nil))
    (fun _ => ⟨200, .json (.vdict .nil)⟩) rfl⟩

/-- Claim C7: with no credential at any source the call fails with the
missing-token error in every deployment mode; in development mode it first
prints the fixed diagnostic — a constant dict naming exactly the two
expected locations and containing no token value; and an unexpected shape
met while probing a call-context source (here: a `configurable` object
whose attribute access raises) is treated as not-found there, resolution
proceeding to the next source. -/
theorem C7_missing_credential :
    (∀ (rt : Runtime) (env : Env) wall_id wall_data respond,
      _get_padlet_token_from_runtime rt = none → env.PADLET_AI_TOKEN = none →
      (update_padlet rt env wall_id wall_data respond).2.2 = .missingToken) ∧
    (∀ (rt : Runtime) (env : Env) wall_id wall_data respond,
      _get_padlet_token_from_runtime rt = none → env.PADLET_AI_TOKEN = none →
      env.ENVIRONMENT = some "development" →
      (update_padlet rt env wall_id wall_data respond).2.1 = [missingTokenDiag]) ∧
    (missingTokenDiag = .vdict (.cons "padlet_token_error" (.vstr "Missing token")
      (.cons "expected_location"
        (.vstr "config.configurable.padlet_token or context.padlet_token") .nil))) ∧
    (tryConfigBlock (.vobj (.cons "configurable" .vraising .nil)) = none) ∧
    (_get_padlet_token_from_runtime ⟨.vobj (.cons "configurable" .vraising .nil),
      .vdict (.cons "padlet_token" (.vstr "T") .nil)⟩ = some "T") := by
  refine ⟨?_, ?_, rfl, by decide, by decide⟩
  · intro rt env wall_id wall_data respond h1 h2
    simp [update_padlet, resolved_token, h1, h2, optStrTruthy]
  · intro rt env wall_id wall_data respond h1 h2 h3
    simp [update_padlet, resolved_token, h1, h2, h3, optStrTruthy]

/-- Witness for C7: an empty runtime and tokenless development environment
produce the missing-token failure. -/
theorem C7_missing_credential_witness :
    _get_padlet_token_from_runtime ⟨.vnone, .vnone⟩ = none ∧
    (Env.mk none (some "development") (some "http://r")).PADLET_AI_TOKEN = none ∧
    (update_padlet ⟨.vnone, .vnone⟩ ⟨none, some "development", some "http://r"⟩ 7 .vnone
      (fun _ => ⟨200, .json (.vdict .nil)⟩)).2.2 = .missingToken :=
  ⟨by decide, rfl,
   C7_missing_credential.1 ⟨.vnone, .vnone⟩ ⟨none, some "development", some "http://r"⟩
     7 .vnone (fun _ => ⟨200, .json (.vdict .nil)⟩) (by decide) rfl⟩

/-- Claim C10 (implicit): a `padlet_token` present at a higher-priority
source but falsy is treated exactly as absent — the probe falls through to
the next source (`configurable.padlet_token = ""` with environment token
`"B"` resolves to `"B"`); when every source yields only falsy values the
call fails with the missing-token error; and a truthy token found in the
call context is used only after coercion through `str` (an integer token
`123` resolves to the string `"123"`). -/
theorem C10_falsy_token_fallthrough :
    (∀ c t, configBlockToken c = .ok t → pyTruthy t = false →
      tryConfigBlock c = none) ∧
    (∀ c t s, configBlockToken c = .ok t → pyTruthy t = true → pyStr t = .ok s →
      tryConfigBlock c = some s) ∧
    (resolved_token ⟨.vdict (.cons "configurable" (.vdict (.cons "padlet_token"
      (.vstr "") .nil)) .nil), .vnone⟩ ⟨some "B", none, none⟩ = some "B") ∧
    (∀ respond, (update_padlet ⟨.vdict (.cons "configurable" (.vdict (.cons "padlet_token"
      (.vstr "") .nil)) .nil), .vnone⟩ ⟨some "", none, none⟩ 1 .vnone
      respond).2.2 = .missingToken) ∧
    (tryConfigBlock (.vdict (.cons "configurable" (.vdict (.cons "padlet_token"
      (.vint 123) .nil)) .nil)) = some "123") := by
  refine ⟨?_, ?_, by decide, fun _ => rfl, by decide⟩
  · intro c t h ht
    simp [tryConfigBlock, returnIfTruthy, h, ht]
  · intro c t s h ht hs
    simp [tryConfigBlock, returnIfTruthy, h, ht, hs]

/-- Witness for C10: the falsy token `""` at the configurable source makes
block 1 yield nothing. -/
theorem C10_falsy_token_fallthrough_witness :
    configBlockToken (.vdict (.cons "configurable" (.vdict (.cons "padlet_token"
      (.vstr "") .nil)) .nil)) = .ok (.vstr "") ∧
    pyTruthy (.vstr "") = false ∧
    tryConfigBlock (.vdict (.cons "configurable" (.vdict (.cons "padlet_token"
      (.vstr "") .nil)) .nil)) = none :=
  ⟨by decide, rfl,
   C10_falsy_token_fallthrough.1 (.vdict (.cons "configurable"
     (.vdict (.cons "padlet_token" (.vstr "") .nil)) .nil)) (.vstr "")
     (by decide) rfl⟩
